import Mathlib

/-!
Shallow embedding of the AI action-confirmation workflow of the
`event_management_system` repository (Django backend), covering:

* `ai/services/action_planner.py` — `plan_action` (intent classifier);
* `ai/models.py`                  — `PendingAIAction` (pending-action store);
* `ems_core/views.py`             — `chat_api` (confirmation engine) and
                                    `_execute_pending_action` (action executor);
* `events/models.py`              — `Event.clean` (record-store validation).

Python/Django semantics are made explicit:

* JSON payload values are an inductive `Json` type (numbers are modelled at
  integer granularity; none of the verified behaviours depends on fractional
  arithmetic);
* Python exceptions are `Except PyErr`; a function that may raise returns in
  that monad, and an uncaught exception propagates to the caller;
* wall-clock datetimes are integers (seconds); Django's ORM string-to-datetime
  coercion on save is modelled by an explicit parser for the ISO-style formats
  `YYYY-MM-DD[ T]HH:MM[:SS]` and `YYYY-MM-DD` accepted on the save path;
* the database is explicit state: lists of venue / event / booking /
  pending-action records threaded through every operation.
-/

namespace EMS

/-- A JSON value, as produced by `json.loads` on the model output and stored in
`PendingAIAction.payload`. Python `None` is `Json.null`; numbers are modelled
as integers. -/
inductive Json where
  | null : Json
  | bool (b : Bool) : Json
  | num (n : Int) : Json
  | str (s : String) : Json
  | arr (xs : List Json) : Json
  | obj (kvs : List (String × Json)) : Json

/-- Python exception kinds that can escape the embedded functions. -/
inductive PyErr where
  | valueError : PyErr
  | typeError : PyErr
  | attributeError : PyErr
  | integrityError : PyErr
  | validationError : PyErr
deriving DecidableEq, Repr

/-- Python truthiness of a JSON value (`bool(v)`). -/
def truthy : Json → Bool
  | .null => false
  | .bool b => b
  | .num n => n != 0
  | .str s => s ≠ ""
  | .arr xs => ¬ xs.isEmpty
  | .obj kvs => ¬ kvs.isEmpty

/-- Python `a or b` on JSON values. -/
def pyOr (a b : Json) : Json := if truthy a then a else b

/-- Python `v is None` on a JSON value. -/
def isNull : Json → Bool
  | .null => true
  | _ => false

/-- `d.get(k)` on a JSON object's key-value list: `None` when absent. -/
def dictGet (kvs : List (String × Json)) (k : String) : Json :=
  match kvs.find? (fun kv => kv.1 = k) with
  | some kv => kv.2
  | none => Json.null

/-- `d.get(k, default)` on a JSON object's key-value list. -/
def dictGetD (kvs : List (String × Json)) (k : String) (d : Json) : Json :=
  match kvs.find? (fun kv => kv.1 = k) with
  | some kv => kv.2
  | none => d

mutual
/-- Python `repr` of a JSON value (enough for the f-string interpolations the
engine performs on payload values). -/
def pyRepr : Json → String
  | .null => "None"
  | .bool true => "True"
  | .bool false => "False"
  | .num n => toString n
  | .str s => "'" ++ s ++ "'"
  | .arr xs => "[" ++ pyReprList xs ++ "]"
  | .obj kvs => "\x7b" ++ pyReprObj kvs ++ "\x7d"

/-- Comma-separated `repr`s of list elements. -/
def pyReprList : List Json → String
  | [] => ""
  | [x] => pyRepr x
  | x :: xs => pyRepr x ++ ", " ++ pyReprList xs

/-- Comma-separated `repr`s of dict items. -/
def pyReprObj : List (String × Json) → String
  | [] => ""
  | [kv] => "'" ++ kv.1 ++ "': " ++ pyRepr kv.2
  | kv :: kvs => "'" ++ kv.1 ++ "': " ++ pyRepr kv.2 ++ ", " ++ pyReprObj kvs
end

/-- Python `str()` of a JSON value. -/
def pyStr : Json → String
  | .str s => s
  | v => pyRepr v

/-- ASCII lower-casing, as Python's `str.lower` behaves on the ASCII strings
this workflow compares. -/
def pyLower (s : String) : String := ⟨s.data.map Char.toLower⟩

/-- ASCII whitespace, the kinds Python's `str.strip` removes in this
workflow's inputs. -/
def isSpaceChar (c : Char) : Bool := c = ' ' ∨ c = '\t' ∨ c = '\n' ∨ c = '\r'

/-- Python `str.strip()`: drop leading and trailing whitespace. -/
def pyStrip (s : String) : String :=
  ⟨((s.data.dropWhile isSpaceChar).reverse.dropWhile isSpaceChar).reverse⟩

/-- Split a character list at every occurrence of `c`
(the semantics of `str.split(c)` / `String.splitOn` for a one-character
separator). -/
def splitCharList (c : Char) : List Char → List (List Char)
  | [] => [[]]
  | x :: xs =>
      let r := splitCharList c xs
      if x = c then [] :: r
      else
        match r with
        | [] => [[x]]
        | y :: ys => (x :: y) :: ys

/-- Split a string at every occurrence of the character `c`. -/
def splitChar (c : Char) (s : String) : List String :=
  (splitCharList c s.data).map String.mk

/-- Parse a non-empty all-digit character list as a natural number. -/
def digitsToNat : List Char → Option Nat
  | [] => none
  | cs =>
      cs.foldl
        (fun acc c =>
          match acc with
          | none => none
          | some n =>
              if '0' ≤ c ∧ c ≤ '9' then some (n * 10 + (c.toNat - 48)) else none)
        (some 0)

/-- Parse a string of decimal digits. -/
def parseNatStr (s : String) : Option Nat := digitsToNat s.data

/-- Python `int(str)`: optional sign, surrounding whitespace, decimal
digits. -/
def parsePyInt (s : String) : Option Int :=
  match (pyStrip s).data with
  | '-' :: rest =>
      match digitsToNat rest with
      | some n => some (-(n : Int))
      | none => none
  | '+' :: rest =>
      match digitsToNat rest with
      | some n => some ((n : Int))
      | none => none
  | cs =>
      match digitsToNat cs with
      | some n => some ((n : Int))
      | none => none

/-! ## Intent Classifier — `ai/services/action_planner.py` -/

/-- The enumerated action kinds accepted by `plan_action`
(`valid_actions` in `action_planner.py`). -/
def valid_actions : List String :=
  ["create_event", "update_event", "delete_event", "create_venue",
   "cancel_booking", "none"]

/-- The structured classifier result (`plan_action`'s returned dict): action
kind, free-form reason value, parameter mapping. -/
structure Plan where
  action : String
  reason : Json
  params : List (String × Json)

/-- `plan_action` (`action_planner.py`, lines 87–118), as a function of the
parse of the text returned by the text-completion client: `none` models a
`json.JSONDecodeError` from `json.loads`, `some v` the parsed JSON value.

* parse failure → the degraded result
  `\x7b"action": "none", "reason": "Model did not return valid JSON.", "params": \x7b\x7d\x7d`;
* a parsed object → `action` coerced into `valid_actions` (a hashable
  non-member — a string outside the set, a number, bool or null — becomes
  `"none"`; an unhashable value such as a list or dict raises `TypeError` in
  the `action not in valid_actions` test, since `valid_actions` is a Python
  set), `reason` defaulted by `or ""`, `params` replaced by `\x7b\x7d` unless
  it is a dict;
* a parsed non-object (list, string, number, …) → `data.get("action", "none")`
  raises `AttributeError`, which `plan_action` does not catch. -/
def plan_action (parsed : Option Json) : Except PyErr Plan :=
  match parsed with
  | none =>
      .ok { action := "none",
            reason := Json.str "Model did not return valid JSON.",
            params := [] }
  | some (Json.obj kvs) =>
      let action0 := dictGetD kvs "action" (Json.str "none")
      let params0 := pyOr (dictGet kvs "params") (Json.obj [])
      let reason := pyOr (dictGet kvs "reason") (Json.str "")
      do
        let action ←
          match action0 with
          | Json.str s => pure (if s ∈ valid_actions then s else "none")
          | Json.arr _ => Except.error PyErr.typeError
          | Json.obj _ => Except.error PyErr.typeError
          | _ => pure "none"
        let params :=
          match params0 with
          | Json.obj m => m
          | _ => []
        pure { action := action, reason := reason, params := params }
  | some _ => .error PyErr.attributeError

/-! ## Datetimes

Wall-clock instants are integers (seconds). Django's ORM coerces a string
assigned to a `DateTimeField` when the model is saved
(`DateTimeField.to_python` → `parse_datetime` / `parse_date`); the formats the
planner is instructed to emit (`YYYY-MM-DD HH:MM`, optionally with seconds or a
`T` separator, or a bare date) are parsed here into seconds via the standard
civil-calendar day count, with real calendar validation (days per month,
leap years) as `datetime` enforces. Save-time errors are kept in Django's
order: field preparation runs first, in field order — an unparseable string
raises `ValidationError` and a non-string non-datetime value raises
`TypeError` — while a `NULL` in a NOT NULL column only fails later, at the
database INSERT (`IntegrityError`). -/

/-- Days since 1970-01-01 of the civil date `y-m-d` (standard
days-from-civil computation). -/
def daysFromCivil (y : Int) (m d : Nat) : Int :=
  let y' : Int := if m ≤ 2 then y - 1 else y
  let era : Int := (if 0 ≤ y' then y' else y' - 399) / 400
  let yoe : Nat := (y' - era * 400).toNat
  let mp : Nat := if 2 < m then m - 3 else m + 9
  let doy : Nat := (153 * mp + 2) / 5 + d - 1
  let doe : Nat := yoe * 365 + yoe / 4 - yoe / 100 + doy
  era * 146097 + (doe : Int) - 719468

/-- Gregorian leap-year rule. -/
def isLeapYear (y : Int) : Bool :=
  (y % 4 = 0 ∧ y % 100 ≠ 0) ∨ y % 400 = 0

/-- Number of days in month `m` of year `y`. -/
def daysInMonth (y : Int) (m : Nat) : Nat :=
  if m = 2 then (if isLeapYear y then 29 else 28)
  else if m = 4 ∨ m = 6 ∨ m = 9 ∨ m = 11 then 30
  else 31

/-- Parse a `YYYY-MM-DD` date part; the date must exist on the calendar
(`datetime` rejects e.g. `2031-02-31`). -/
def parseDatePart (s : String) : Option (Int × Nat × Nat) :=
  match splitChar '-' s with
  | [ys, ms, ds] =>
      match parseNatStr ys, parseNatStr ms, parseNatStr ds with
      | some y, some m, some d =>
          if 1 ≤ m ∧ m ≤ 12 ∧ 1 ≤ d ∧ d ≤ daysInMonth (y : Int) m then
            some ((y : Int), m, d)
          else none
      | _, _, _ => none
  | _ => none

/-- Parse a `HH:MM` or `HH:MM:SS` time part into seconds past midnight. -/
def parseTimePart (s : String) : Option Nat :=
  match splitChar ':' s with
  | [hs, ms] =>
      match parseNatStr hs, parseNatStr ms with
      | some h, some mi =>
          if h ≤ 23 ∧ mi ≤ 59 then some (h * 3600 + mi * 60) else none
      | _, _ => none
  | [hs, ms, ss] =>
      match parseNatStr hs, parseNatStr ms, parseNatStr ss with
      | some h, some mi, some sec =>
          if h ≤ 23 ∧ mi ≤ 59 ∧ sec ≤ 59 then
            some (h * 3600 + mi * 60 + sec)
          else none
      | _, _, _ => none
  | _ => none

/-- Parse an ISO-style datetime string (`YYYY-MM-DD[ T]HH:MM[:SS]` or a bare
`YYYY-MM-DD`) into seconds since the epoch, as the Django save path accepts. -/
def parseDT (s : String) : Option Int :=
  let t : String := ⟨(pyStrip s).data.map (fun c => if c = 'T' then ' ' else c)⟩
  match splitChar ' ' t with
  | [ds] =>
      match parseDatePart ds with
      | some (y, m, d) => some (daysFromCivil y m d * 86400)
      | none => none
  | [ds, ts] =>
      match parseDatePart ds, parseTimePart ts with
      | some (y, m, d), some sec => some (daysFromCivil y m d * 86400 + sec)
      | _, _ => none
  | _ => none

/-- Save-time preparation of a payload value assigned to a `DateTimeField`
(`DateTimeField.get_prep_value` → `to_python`): `None` passes through (the
NOT NULL check happens later, at the database), a string must parse as an
ISO-style datetime or date, anything else raises `TypeError`. -/
def prepDT : Json → Except PyErr (Option Int)
  | Json.null => .ok none
  | Json.str s =>
      match parseDT s with
      | some t => .ok (some t)
      | none => .error PyErr.validationError
  | _ => .error PyErr.typeError

/-- The database's NOT NULL enforcement for a column at INSERT time. -/
def requireNotNull {α : Type} : Option α → Except PyErr α
  | some a => .ok a
  | none => .error PyErr.integrityError

/-- A value bound for the NOT NULL `status` column (`CharField`): its
preparation cannot fail (`str()` of any non-null value), but SQL `NULL`
violates the column's NOT NULL constraint at INSERT time. -/
def coerceStatus : Json → Except PyErr String
  | Json.null => .error PyErr.integrityError
  | v => .ok (pyStr v)

/-- A value bound for a nullable text column (`Event.description`,
`TextField(null=True)`): `None` is stored as SQL NULL, anything else via
`str()`. -/
def optStrVal : Json → Option String
  | Json.null => none
  | v => some (pyStr v)

/-- ORM coercion of a payload value assigned to a nullable `IntegerField` on
save (`Event.capacity`); Python `int()` accepts bools and numeric strings. -/
def coerceOptInt : Json → Except PyErr (Option Int)
  | Json.null => .ok none
  | Json.num n => .ok (some n)
  | Json.bool b => .ok (some (if b then 1 else 0))
  | Json.str s =>
      match parsePyInt s with
      | some n => .ok (some n)
      | none => .error PyErr.valueError
  | _ => .error PyErr.typeError

/-- ORM coercion of a payload value assigned to a nullable `DecimalField` on
save (`Event.ticket_price`), at the integer granularity of this model. -/
def coerceOptDecimal : Json → Except PyErr (Option Int)
  | Json.null => .ok none
  | Json.num n => .ok (some n)
  | Json.str s =>
      match parsePyInt s with
      | some n => .ok (some n)
      | none => .error PyErr.validationError
  | _ => .error PyErr.validationError

/-- ORM coercion of a value used as a primary-key lookup
(`AutoField` → Python `int()`): a non-numeric string raises `ValueError`,
`None`/containers raise `TypeError`. -/
def coercePk : Json → Except PyErr Int
  | Json.num n => .ok n
  | Json.bool b => .ok (if b then 1 else 0)
  | Json.str s =>
      match parsePyInt s with
      | some n => .ok n
      | none => .error PyErr.valueError
  | _ => .error PyErr.typeError

/-! ## Record-store entities — `events/models.py`, `bookings/models.py` -/

/-- A `Venue` row (`events/models.py`). Only the fields the workflow touches
are carried. -/
structure Venue where
  venue_id : Nat
  name : String
  address : String
  capacity : Int

/-- An `Event` row (`events/models.py`). `event_type` defaults to
`"EXHIBITION"`; `start_time`/`end_time` and `status` are NOT NULL columns,
`description` is nullable. -/
structure Event where
  event_id : Nat
  organizer : Nat
  venue : Nat
  event_type : String
  title : String
  description : Option String
  start_time : Int
  end_time : Int
  capacity : Option Int
  status : String
  ticket_price : Option Int

/-- A `Booking` row (`bookings/models.py`); `event` cascades on event
deletion. -/
structure Booking where
  booking_id : Nat
  event : Nat
  customer : Nat
  status : String

/-- Python falsiness of `self.capacity` (`not self.capacity`): `None` or `0`. -/
def capacityFalsy : Option Int → Bool
  | none => true
  | some c => c = 0

/-- `self.ticket_price not in (None, 0)`. -/
def priceNotNoneZero : Option Int → Bool
  | none => false
  | some p => p ≠ 0

/-- `Event.clean` (`events/models.py`, lines 133–175): the `errors` dict it
accumulates, as a list of `(field, message)` pairs in insertion order.
`timezone.localtime` preserves ordering, so instants are compared directly.
The guard `if self.start_time and self.end_time` always holds here because
both columns are NOT NULL in this embedding. A non-empty result means
`ValidationError(errors)` is raised. -/
def event_clean_errors (now : Int) (e : Event) : List (String × String) :=
  let dtErrs :=
    (if e.start_time < now then
       [("start_time", "Start time cannot be in the past.")]
     else []) ++
    (if e.end_time ≤ e.start_time then
       [("end_time", "End time must be after the start time.")]
     else [])
  let typeErrs :=
    if e.event_type = "EXHIBITION" then
      if priceNotNoneZero e.ticket_price then
        [("ticket_price", "Exhibitions must not have a ticket price.")]
      else []
    else if e.event_type = "CONFERENCE" then
      (if capacityFalsy e.capacity then
         [("capacity", "Capacity is required for conferences.")]
       else []) ++
      (if priceNotNoneZero e.ticket_price then
         [("ticket_price", "Conferences must be free (ticket price 0).")]
       else [])
    else if e.event_type = "CONCERT" ∨ e.event_type = "SPORTS" then
      (if capacityFalsy e.capacity then
         [("capacity", "Capacity is required for paid events.")]
       else []) ++
      (if e.ticket_price.elim true (fun p => p ≤ 0) then
         [("ticket_price", "Ticket price must be greater than 0 for paid events.")]
       else [])
    else []
  dtErrs ++ typeErrs

/-! ## Pending Action Store — `ai/models.py` -/

/-- A `PendingAIAction` row: owner, enumerated kind, JSON payload, creation
and absolute expiry timestamps. `id` is the auto primary key. -/
structure PendingAIAction where
  id : Nat
  user : Nat
  action_type : String
  payload : List (String × Json)
  created_at : Int
  expires_at : Int

/-- `PendingAIAction.is_expired`: `expires_at <= timezone.now()`. -/
def PendingAIAction.is_expired (p : PendingAIAction) (now : Int) : Bool :=
  p.expires_at ≤ now

/-- The whole persistent state the workflow reads and writes: the wall clock,
the `UserProfile.organizer` links (present only for admin-approved
organizers), and the four record tables with their auto-increment counters. -/
structure St where
  now : Int
  userOrganizers : List (Nat × Nat)
  venues : List Venue
  events : List Event
  bookings : List Booking
  pendings : List PendingAIAction
  nextEventId : Nat
  nextVenueId : Nat
  nextPendingId : Nat

/-- `profile.organizer` for a user: the linked organizer id, if any
(`None` both when the profile is missing and when no organizer is linked,
as `_get_user_organizer` / `chat_api` treat those alike). -/
def organizerOf (st : St) (u : Nat) : Option Nat :=
  match st.userOrganizers.find? (fun kv => kv.1 = u) with
  | some kv => some kv.2
  | none => none

/-- `PendingAIAction.objects.filter(user=user).order_by("-created_at").first()`:
the record with the greatest `created_at` among the user's rows (tie order is
backend-unspecified; this model keeps the earliest-inserted among ties, which
no verified run exercises — creation times are distinct in every run). -/
def mostRecentFor (pendings : List PendingAIAction) (u : Nat) : Option PendingAIAction :=
  (pendings.filter (fun p => p.user = u)).foldl
    (fun acc p =>
      match acc with
      | none => some p
      | some q => if q.created_at < p.created_at then some p else some q)
    none

/-- `pending.delete()`: remove the row by primary key. -/
def deletePending (st : St) (p : PendingAIAction) : St :=
  { st with pendings := st.pendings.filter (fun q => q.id ≠ p.id) }

/-- `PendingAIAction.create_for(user, action_type, payload, minutes)`
(`ai/models.py`, lines 37–47): a fresh row whose expiry is computed once as
`timezone.now() + timedelta(minutes=minutes)`. Returns the row and the
updated store. -/
def create_for (st : St) (u : Nat) (action_type : String)
    (payload : List (String × Json)) (minutes : Int) :
    PendingAIAction × St :=
  let p : PendingAIAction :=
    { id := st.nextPendingId
      user := u
      action_type := action_type
      payload := payload
      created_at := st.now
      expires_at := st.now + minutes * 60 }
  (p, { st with pendings := st.pendings ++ [p],
                nextPendingId := st.nextPendingId + 1 })

/-! ## Action Executor — `_execute_pending_action` (`ems_core/views.py`,
lines 364–461)

The executor is threaded through `Except PyErr`: a Python exception that the
source does not catch is an `.error`, which propagates to `chat_api`. -/

/-- `event__organizer=organizer` join condition of the
`Booking.objects.get` lookup in the `cancel_booking` branch (an SQL `IS NULL`
comparison matches no row when `organizer` is `None`, since the column is
NOT NULL). -/
def bookingOwnedBy (st : St) (org : Option Nat) (b : Booking) : Bool :=
  match st.events.find? (fun e => e.event_id = b.event) with
  | some e => org = some e.organizer
  | none => false

/-- `_execute_pending_action(pending, user)`. Returns the reply text and the
updated record store; it never deletes the pending row itself (its caller
does). -/
def execute_pending_action (st : St) (pending : PendingAIAction) (u : Nat) :
    Except PyErr (String × St) :=
  let params := pending.payload
  let organizer := organizerOf st u
  if pending.action_type = "create_event" then
    match organizer with
    | none =>
        .ok ("I couldn‚Äôt find an organizer profile linked to your account, " ++
             "so I can‚Äôt create the event.", st)
    | some org =>
        let title := pyOr (dictGet params "title") (Json.str "Untitled event")
        let venue_name := dictGet params "venue_name"
        if ¬ truthy venue_name then
          .ok ("I‚Äôm missing the venue name for this event.", st)
        else
          match st.venues.find?
              (fun v => pyLower v.name = pyLower (pyStr venue_name)) with
          | none =>
              .ok ("I couldn‚Äôt find a venue called \x27" ++ pyStr venue_name ++
                   "\x27. " ++
                   "Please create that venue first or specify a different name.",
                   st)
          | some venue =>
              let start := dictGet params "start"
              let endv := pyOr (dictGet params "end") start
              -- `Event.objects.create`: field preparation runs first, in
              -- field order (start_time, end_time, capacity, ticket_price);
              -- only then does the INSERT enforce the NOT NULL columns
              -- (start_time, end_time, status — in column order).
              do
                let startP ← prepDT start
                let endP ← prepDT endv
                let cap ← coerceOptInt (dictGet params "capacity")
                let price ← coerceOptDecimal (dictGet params "ticket_price")
                let startT ← requireNotNull startP
                let endT ← requireNotNull endP
                let status ← coerceStatus (dictGetD params "status" (Json.str "DRAFT"))
                let ev : Event :=
                  { event_id := st.nextEventId
                    organizer := org
                    venue := venue.venue_id
                    event_type := "EXHIBITION"
                    title := pyStr title
                    description := optStrVal (dictGetD params "description" (Json.str ""))
                    start_time := startT
                    end_time := endT
                    capacity := cap
                    status := status
                    ticket_price := price }
                .ok ("‚úÖ Event \x27" ++ ev.title ++
                     "\x27 has been created (ID: " ++ toString ev.event_id ++ ").",
                     { st with events := st.events ++ [ev],
                               nextEventId := st.nextEventId + 1 })
  else if pending.action_type = "delete_event" then
    let identifier := dictGet params "identifier"
    if ¬ truthy identifier then
      .ok ("I didn‚Äôt receive an event identifier to delete.", st)
    else
      let qs := st.events.filter (fun e => organizer = some e.organizer)
      do
        let byPk : Option Event ←
          match identifier with
          | Json.num n => pure (qs.find? (fun e => (e.event_id : Int) = n))
          | Json.bool b =>
              pure (qs.find? (fun e => (e.event_id : Int) = (if b then 1 else 0)))
          | Json.str s =>
              match parsePyInt s with
              | some n => pure (qs.find? (fun e => (e.event_id : Int) = n))
              | none => pure none
          | _ => .error PyErr.typeError
        let event :=
          match byPk with
          | some e => some e
          | none => qs.find? (fun e => pyLower e.title = pyLower (pyStr identifier))
        match event with
        | none =>
            .ok ("I couldn‚Äôt find an event matching \x27" ++ pyStr identifier ++
                 "\x27 " ++ "under your organizer account.", st)
        | some e =>
            .ok ("üóëÔ∏è Event \x27" ++ e.title ++ "\x27 has been deleted.",
                 { st with
                     events := st.events.filter (fun x => x.event_id ≠ e.event_id),
                     bookings := st.bookings.filter (fun b => b.event ≠ e.event_id) })
  else if pending.action_type = "cancel_booking" then
    let booking_id := dictGet params "booking_id"
    if ¬ truthy booking_id then
      .ok ("I didn‚Äôt receive a booking id to cancel.", st)
    else do
      let bid ← coercePk booking_id
      match st.bookings.find?
          (fun b => (b.booking_id : Int) = bid ∧ bookingOwnedBy st organizer b) with
      | none => .ok ("I couldn‚Äôt find that booking under your events.", st)
      | some b =>
          .ok ("‚úÖ Booking " ++ toString b.booking_id ++ " has been cancelled.",
               { st with bookings := st.bookings.map (fun x =>
                   if x.booking_id = b.booking_id then
                     { x with status := "CANCELLED" }
                   else x) })
  else
    .ok ("I don‚Äôt yet know how to execute this type of action.", st)

/-! ## Action Confirmation Engine — `chat_api` (`ems_core/views.py`,
lines 190–361)

`chat_api` is a function of the state, the requesting identity, the stripped
message text, and the two external text-completion results this request may
consume: `llm` is the parse of the planner call's reply (`none` = not valid
JSON) and `answer_text` is the reply `answer_question` produces on the
read-only path (an opaque external collaborator; only its verbatim text
matters here). -/

/-- The fixed confirm-phrase set (`chat_api`, line 232). -/
def confirm_phrases : List String :=
  ["yes", "y", "confirm", "ok", "okay", "do it", "go ahead"]

/-- The fixed cancel-phrase set (`chat_api`, line 233). -/
def cancel_phrases : List String :=
  ["no", "n", "cancel", "stop", "never mind", "abort"]

/-- The fixed cancellation acknowledgment. -/
def cancel_reply : String :=
  "Okay, I‚Äôve cancelled that action and won‚Äôt make any changes."

/-- The reminder prepended when a pending action exists but the message is
neither a confirm nor a cancel phrase. -/
def reminder_text : String :=
  "You still have a pending action waiting for confirmation.\n\n" ++
  "If you‚Äôd like to proceed, type **yes**. To cancel, type **no**.\n\n" ++
  "I‚Äôll also treat your new message as a separate question."

/-- The fixed permission-denied reply for non-organizers requesting a write
action. -/
def permission_denied_reply : String :=
  "It looks like you‚Äôre asking me to modify events or bookings, " ++
  "but you‚Äôre not registered as an organizer. " ++
  "You can still ask me questions about events and your own bookings."

/-- The per-kind bullet lines of the action preview
(`chat_api`, lines 300–351). -/
def preview_body (action : String) (params : List (String × Json)) :
    List String :=
  if action = "create_event" then
    let title := dictGetD params "title" (Json.str "(missing title)")
    let venue_name := dictGetD params "venue_name" (Json.str "(venue not specified)")
    let start := dictGet params "start"
    let endv := dictGet params "end"
    let capacity := dictGet params "capacity"
    let price := dictGet params "ticket_price"
    let description := dictGet params "description"
    ["‚Ä¢ **Title** (required): " ++ pyStr title,
     "‚Ä¢ **Venue** (required): " ++ pyStr venue_name] ++
    (if truthy start then ["‚Ä¢ **Starts at**: " ++ pyStr start] else []) ++
    (if truthy endv then ["‚Ä¢ **Ends at**: " ++ pyStr endv] else []) ++
    (if ¬ isNull capacity then ["‚Ä¢ **Capacity**: " ++ pyStr capacity] else []) ++
    (if ¬ isNull price then ["‚Ä¢ **Ticket price**: $" ++ pyStr price] else []) ++
    (if truthy description then ["‚Ä¢ Description: " ++ pyStr description] else [])
  else if action = "delete_event" then
    ["‚Ä¢ Delete the event identified by: " ++
      pyStr (dictGetD params "identifier" (Json.str "(no identifier)"))]
  else if action = "update_event" then
    ["‚Ä¢ Update the event identified by: " ++
      pyStr (dictGetD params "identifier" (Json.str "(no identifier)")),
     "‚Ä¢ With changes: " ++
      pyRepr (Json.obj (params.filter (fun kv => kv.1 ≠ "identifier")))]
  else if action = "create_venue" then
    ["‚Ä¢ Create a **venue** named: " ++
      pyStr (dictGetD params "name" (Json.str "(missing name)"))] ++
    (if truthy (dictGet params "address") then
       ["‚Ä¢ Address: " ++ pyStr (dictGet params "address")] else []) ++
    (if ¬ isNull (dictGet params "capacity") then
       ["‚Ä¢ Capacity: " ++ pyStr (dictGet params "capacity")] else []) ++
    (if truthy (dictGet params "type") then
       ["‚Ä¢ Type: " ++ pyStr (dictGet params "type")] else [])
  else if action = "cancel_booking" then
    ["‚Ä¢ Cancel booking with ID: " ++
      pyStr (dictGetD params "booking_id" (Json.str "(missing id)"))]
  else []

/-- The full preview reply: header, per-kind bullets, confirm/cancel
instruction, and the planner's reason when truthy. -/
def preview_text (action : String) (params : List (String × Json))
    (reason : Json) : String :=
  let lines :=
    ["Here‚Äôs what I plan to do (`" ++ action ++ "`):", ""] ++
    preview_body action params ++
    ["", "If this looks correct, type **yes** to confirm. To cancel, type **no**."] ++
    (if truthy reason then
       ["", "_Why I chose this action_: " ++ pyStr reason] else [])
  String.intercalate "\n" lines

/-- The separator placed between the reminder and the informational answer. -/
def answer_sep : String := "\n\n---\n\n"

/-- Steps 2–3 of `chat_api` (lines 256–361): classify via the action planner,
then answer, deny, or stage a pending action with a preview. `reminder` is the
notice set when a live pending action was bypassed in step 1. An
`AttributeError` escaping `plan_action` propagates. -/
def plannerBranch (st : St) (u : Nat) (llm : Option Json)
    (answer_text : String) (reminder : Option String) :
    Except PyErr (String × St) := do
  let is_organizer := (organizerOf st u).isSome
  let plan ← plan_action llm
  let action := plan.action
  let params := plan.params
  let reason := pyOr plan.reason (Json.str "")
  if action = "none" then
    let answer :=
      match reminder with
      | some r => r ++ answer_sep ++ answer_text
      | none => answer_text
    .ok (answer, st)
  else if ¬ is_organizer then
    .ok (permission_denied_reply, st)
  else
    let created := create_for st u action params 5
    .ok (preview_text action params reason, created.2)

/-- `chat_api` for one inbound message. `message` is the stripped message
body (the view already 400-rejects an empty one). Step 1 loads the most
recent pending action, lazily deletes it when expired, and dispatches on the
confirm/cancel phrase sets; otherwise steps 2–3 run with a reminder exactly
when a live pending action was bypassed. -/
def chat_api (st : St) (u : Nat) (message : String) (llm : Option Json)
    (answer_text : String) : Except PyErr (String × St) :=
  let normalized := pyStrip (pyLower message)
  match mostRecentFor st.pendings u with
  | none => plannerBranch st u llm answer_text none
  | some p =>
      if p.is_expired st.now then
        plannerBranch (deletePending st p) u llm answer_text none
      else if normalized ∈ confirm_phrases then
        do
          let res ← execute_pending_action st p u
          .ok (res.1, deletePending res.2 p)
      else if normalized ∈ cancel_phrases then
        .ok (cancel_reply, deletePending st p)
      else
        plannerBranch st u llm answer_text (some reminder_text)

/-! ## Scripted observation runs

A script is a sequence of `chat_api` requests, each giving the request time,
the identity, the message, and the two external text-completion results the
request consumes. None of the scripted runs below raises, so the error arm of
the driver is never taken in any verified run. -/

/-- One scripted `chat_api` request. -/
structure ChatStep where
  t : Int
  u : Nat
  msg : String
  llm : Option Json
  ans : String

/-- Run a script, threading the store state. -/
def runScript (st : St) : List ChatStep → St
  | [] => st
  | step :: rest =>
      match chat_api { st with now := step.t } step.u step.msg step.llm step.ans with
      | .ok (_, st') => runScript st' rest
      | .error _ => runScript { st with now := step.t } rest

/-- The reply text of a single `chat_api` request (empty on an uncaught
exception; no verified run hits that arm). -/
def runReply (st : St) (u : Nat) (msg : String) (llm : Option Json)
    (ans : String) : String :=
  match chat_api st u msg llm ans with
  | .ok (r, _) => r
  | .error _ => ""

/-- The user's pending actions that are not expired at the state's clock. -/
def livePendingsFor (st : St) (u : Nat) : List PendingAIAction :=
  st.pendings.filter (fun p => p.user = u ∧ ¬ p.is_expired st.now)

/-- Base store for the observation runs: one approved organizer (user 1,
organizer 10) and one venue named `"Hall A"`. -/
def demoSt : St :=
  { now := 1000
    userOrganizers := [(1, 10)]
    venues := [⟨1, "Hall A", "addr", 100⟩]
    events := []
    bookings := []
    pendings := []
    nextEventId := 1
    nextVenueId := 2
    nextPendingId := 1 }

/-- A planner reply classifying the message as `create_event` for an event
titled `"Launch"` at `"Hall A"` starting `2031-05-01 10:00`, with no end. -/
def createLaunchLlm : Option Json :=
  some (Json.obj
    [("action", Json.str "create_event"),
     ("reason", Json.str "user asked"),
     ("params", Json.obj
        [("title", Json.str "Launch"),
         ("venue_name", Json.str "Hall A"),
         ("start", Json.str "2031-05-01 10:00")])])

/-- Two classification requests ten seconds apart, each staging a
`create_event` pending action (the second while the first is still live). -/
def twoCreatesScript : List ChatStep :=
  [⟨1000, 1, "please create event", createLaunchLlm, "ANSWER"⟩,
   ⟨1010, 1, "make another event", createLaunchLlm, "ANSWER"⟩]

/-- `twoCreatesScript` followed by a confirmation ten seconds later. -/
def twoCreatesThenYesScript : List ChatStep :=
  twoCreatesScript ++ [⟨1020, 1, "yes", createLaunchLlm, "ANSWER"⟩]

/-- One classification request followed by a confirmation: stages the
`"Launch"` event and confirms it. -/
def createThenYesScript : List ChatStep :=
  [⟨1000, 1, "please create event", createLaunchLlm, "ANSWER"⟩,
   ⟨1020, 1, "yes", createLaunchLlm, "ANSWER"⟩]

/-- A `cancel_booking` pending action whose `booking_id` parameter is the
non-numeric string `"abc"`. -/
def badBookingPending : PendingAIAction :=
  ⟨5, 1, "cancel_booking", [("booking_id", Json.str "abc")], 1000, 1300⟩

/-- The store after the first step of `twoCreatesScript`, observed ten seconds
later: user 1 has one live pending action awaiting confirmation. -/
def pendingLiveSt : St :=
  { runScript demoSt
      [⟨1000, 1, "please create event", createLaunchLlm, "ANSWER"⟩] with
    now := 1010 }

/-- An `update_event` pending action: its execution path is the reserved
"not yet implemented" described failure, which leaves the store unchanged. -/
def updatePending : PendingAIAction := ⟨1, 1, "update_event", [], 1000, 1300⟩

/-- `demoSt` with `updatePending` as identity 1's only pending action. -/
def oneUpdatePendingSt : St := { demoSt with pendings := [updatePending] }

/-- A `create_event` pending action naming the venue `"Hall B"`, which does
not exist in `demoSt`. -/
def hallBPending : PendingAIAction :=
  ⟨3, 1, "create_event", [("venue_name", Json.str "Hall B")], 1000, 1300⟩

/-- A pending action created at 400 that expired at 700, well before
`demoSt`'s clock of 1000. -/
def stalePending : PendingAIAction := ⟨7, 1, "create_event", [], 400, 700⟩

/-- `demoSt` holding only the stale pending action. -/
def stalePendingSt : St := { demoSt with pendings := [stalePending] }

/-- A planner reply classifying the message as `delete_event`. -/
def deleteLaunchLlm : Option Json :=
  some (Json.obj
    [("action", Json.str "delete_event"),
     ("params", Json.obj [("identifier", Json.str "Launch")])])

/-- A planner reply classifying the message as purely informational. -/
def noneLlm : Option Json := some (Json.obj [("action", Json.str "none")])

/-- The fold inside `mostRecentFor` returns an input (or the seed) whose
`created_at` is maximal among the seed and all traversed records. -/
theorem recencyFold_spec (l : List PendingAIAction) :
    ∀ (acc : Option PendingAIAction) (r : PendingAIAction),
      l.foldl
        (fun acc p =>
          match acc with
          | none => some p
          | some q => if q.created_at < p.created_at then some p else some q)
        acc = some r →
      (acc = some r ∨ r ∈ l) ∧
      (∀ q, acc = some q → q.created_at ≤ r.created_at) ∧
      (∀ q ∈ l, q.created_at ≤ r.created_at) := by
  induction l with
  | nil =>
      intro acc r h
      simp only [List.foldl_nil] at h
      refine ⟨Or.inl h, fun q hq => ?_, fun q hq => absurd hq (List.not_mem_nil q)⟩
      rw [hq] at h
      cases h
      exact le_refl _
  | cons x xs ih =>
      intro acc r h
      simp only [List.foldl_cons] at h
      obtain ⟨h1, h2, h3⟩ := ih _ r h
      refine ⟨?_, ?_, ?_⟩
      · rcases h1 with h1 | h1
        · cases acc with
          | none =>
              have h1' : some x = some r := h1
              cases h1'
              exact Or.inr (List.mem_cons_self _ _)
          | some q =>
              have h1' : (if q.created_at < x.created_at then some x else some q)
                  = some r := h1
              by_cases hc : q.created_at < x.created_at
              · rw [if_pos hc] at h1'
                cases h1'
                exact Or.inr (List.mem_cons_self _ _)
              · rw [if_neg hc] at h1'
                exact Or.inl h1'
        · exact Or.inr (List.mem_cons_of_mem _ h1)
      · intro q' hq'
        subst hq'
        by_cases hc : q'.created_at < x.created_at
        · refine le_trans (le_of_lt hc) (h2 x ?_)
          show (if q'.created_at < x.created_at then some x else some q') = some x
          rw [if_pos hc]
        · refine h2 q' ?_
          show (if q'.created_at < x.created_at then some x else some q') = some q'
          rw [if_neg hc]
      · intro q hq
        rcases List.mem_cons.mp hq with hq | hq
        · subst hq
          cases acc with
          | none => exact h2 q rfl
          | some q' =>
              by_cases hc : q'.created_at < q.created_at
              · refine h2 q ?_
                show (if q'.created_at < q.created_at then some q else some q') = some q
                rw [if_pos hc]
              · refine le_trans (le_of_not_lt hc) (h2 q' ?_)
                show (if q'.created_at < q.created_at then some q else some q') = some q'
                rw [if_neg hc]
        · exact h3 q hq

/-- Claim C1, amended: after a sequence of `chat_api` requests an identity may
hold several non-expired `PendingAIAction` rows (step 5 creates without
deleting); the supersession is observational only — the engine consults
`mostRecentFor`, which always selects a row of the identity with the greatest
creation time, so earlier live rows are shadowed, never acted upon. -/
theorem c1_most_recent_selected (store : List PendingAIAction) (u : Nat)
    (p : PendingAIAction) (h : mostRecentFor store u = some p) :
    p ∈ store ∧ p.user = u ∧
    store.all (fun q => !(decide (q.user = u)) || decide (q.created_at ≤ p.created_at))
      = true := by
  unfold mostRecentFor at h
  obtain ⟨h1, _, h3⟩ := recencyFold_spec _ _ _ h
  rcases h1 with h1 | h1
  · cases h1
  have hmem := List.mem_filter.mp h1
  refine ⟨hmem.1, by simpa using hmem.2, ?_⟩
  rw [List.all_eq_true]
  intro q hq
  by_cases hu : q.user = u
  · have hmemq : q ∈ store.filter (fun p => p.user = u) :=
      List.mem_filter.mpr ⟨hq, by simpa using hu⟩
    simp [hu, h3 q hmemq]
  · simp [hu]

/-- Claim C1, witness for the amended theorem: a concrete two-row store in
which `mostRecentFor` selects the later-created row. -/
theorem c1_witness :
    mostRecentFor
      [⟨1, 1, "create_event", [], 1000, 1300⟩,
       ⟨2, 1, "create_event", [], 1010, 1310⟩] 1
      = some ⟨2, 1, "create_event", [], 1010, 1310⟩ ∧
    ((⟨2, 1, "create_event", [], 1010, 1310⟩ : PendingAIAction)
        ∈ [⟨1, 1, "create_event", [], 1000, 1300⟩,
           ⟨2, 1, "create_event", [], 1010, 1310⟩] ∧
      (⟨2, 1, "create_event", [], 1010, 1310⟩ : PendingAIAction).user = 1 ∧
      ([⟨1, 1, "create_event", [], 1000, 1300⟩,
        ⟨2, 1, "create_event", [], 1010, 1310⟩] :
          List PendingAIAction).all
        (fun q => !(decide (q.user = 1)) ||
            decide (q.created_at ≤
              (⟨2, 1, "create_event", [], 1010, 1310⟩ : PendingAIAction).created_at))
        = true) :=
  ⟨rfl, c1_most_recent_selected _ 1 _ rfl⟩

/-- Claim C1, counterexample: the per-identity uniqueness invariant fails.
Starting from an empty pending store, two `chat_api` requests ten seconds
apart — the second sent while the first request's pending action is still
live and classified as a new mutation — leave TWO non-expired
`PendingAIAction` rows for identity 1: step 5 creates the new row without
deleting the bypassed live one. -/
theorem c1_counterexample :
    (livePendingsFor (runScript demoSt twoCreatesScript) 1).length = 2 := by
  rfl

/-- The executor reads and writes venues, events and bookings but never the
pending-action table: its own deletion is performed by `chat_api` (and only
for the confirmed row). -/
theorem execute_pendings_unchanged (st : St) (p : PendingAIAction) (u : Nat)
    (r : String) (st' : St)
    (h : execute_pending_action st p u = .ok (r, st')) :
    st'.pendings = st.pendings := by
  unfold execute_pending_action at h
  simp only [bind, Except.bind] at h
  repeat' (split at h)
  all_goals (first | (cases h; rfl) | cases h)

/-- Claim C2, amended: when the most recent pending action of the identity is
live and the message normalizes into the confirm-phrase set, the engine
invokes the executor on it and — whenever the executor returns a result text
(success or described failure) — deletes that pending action and returns the
executor's text verbatim; if it was the identity's only pending action, none
remains afterwards. (As stated the claim fails: an earlier still-live pending
action survives the confirmation, and an executor that raises skips the
deletion; see the counterexample and claim C3.) -/
theorem c2_confirm_executes_and_deletes (st : St) (u : Nat) (msg : String)
    (llm : Option Json) (ans : String) (p : PendingAIAction)
    (r : String) (st' : St)
    (h1 : mostRecentFor st.pendings u = some p)
    (h2 : p.is_expired st.now = false)
    (h3 : pyStrip (pyLower msg) ∈ confirm_phrases)
    (h4 : execute_pending_action st p u = .ok (r, st'))
    (h5 : ∀ q ∈ st.pendings, q.user = u → q.id = p.id) :
    chat_api st u msg llm ans = .ok (r, deletePending st' p) ∧
    (deletePending st' p).pendings.filter (fun q => q.user = u) = [] := by
  have hpend := execute_pendings_unchanged st p u r st' h4
  constructor
  · unfold chat_api
    rw [h1]
    simp only [h2, Bool.false_eq_true, if_false, bind, Except.bind]
    rw [if_pos h3]
    rw [h4]
  · unfold deletePending
    simp only [hpend]
    rw [List.filter_filter]
    rw [List.filter_eq_nil_iff]
    intro a ha
    simp only [Bool.and_eq_true, decide_eq_true_eq]
    rintro ⟨hid, hu⟩
    exact absurd (h5 a ha hid) hu


/-- Claim C2, witness: confirming the lone `update_event` pending action with
`"yes"` returns the executor's described failure, deletes the pending action,
and leaves no pending action for the identity. -/
theorem c2_witness :
    mostRecentFor oneUpdatePendingSt.pendings 1 = some updatePending ∧
    updatePending.is_expired oneUpdatePendingSt.now = false ∧
    pyStrip (pyLower "yes") ∈ confirm_phrases ∧
    execute_pending_action oneUpdatePendingSt updatePending 1
      = .ok ("I don‚Äôt yet know how to execute this type of action.",
             oneUpdatePendingSt) ∧
    (∀ q ∈ oneUpdatePendingSt.pendings, q.user = 1 → q.id = updatePending.id) ∧
    (chat_api oneUpdatePendingSt 1 "yes" none "ANSWER"
        = .ok ("I don‚Äôt yet know how to execute this type of action.",
               deletePending oneUpdatePendingSt updatePending) ∧
      (deletePending oneUpdatePendingSt updatePending).pendings.filter
          (fun q => q.user = 1) = []) :=
  ⟨rfl, rfl, by decide, rfl, by decide,
   c2_confirm_executes_and_deletes oneUpdatePendingSt 1 "yes" none "ANSWER"
     updatePending _ oneUpdatePendingSt rfl rfl (by decide) rfl (by decide)⟩

/-- Claim C2, counterexample: after the two-creations run, confirming with
`"yes"` executes and deletes only the most recent pending action; the earlier
still-live one remains, so a pending action DOES remain for the identity
afterwards (the claim's final conjunct fails). -/
theorem c2_counterexample :
    (mostRecentFor (runScript demoSt twoCreatesThenYesScript).pendings 1).isSome
      = true := by
  rfl

/-- Claim C3: the Action Executor is not total. On a `cancel_booking` pending
action whose `booking_id` is the non-numeric string `"abc"`, the primary-key
lookup `Booking.objects.get(pk=booking_id, ...)` coerces the value with
`int()`, raising `ValueError`, which the branch's `except Booking.DoesNotExist`
does not catch — the exception propagates to the caller. -/
theorem c3_executor_raises :
    execute_pending_action demoSt badBookingPending 1
      = .error PyErr.valueError := by
  rfl

/-- Claim C4: `plan_action` is not raise-free over all model outputs. When the
model returns text that is valid JSON but not an object (here `"[]"`),
`json.loads` succeeds and `data.get("action", "none")` raises
`AttributeError` instead of degrading to the `"none"` result. -/
theorem c4_planner_raises :
    plan_action (some (Json.arr [])) = .error PyErr.attributeError := by
  rfl

/-- Claim C5: a confirmed `create_event` pending action is committed through
`Event.objects.create`, which never runs `Event.clean`. Confirming the staged
`"Launch"` event (start given, no end, so `end = start`) persists exactly one
event even though its validation errors are non-empty (`end_time` must be
after `start_time`) — no validation failure is reported and the invalid event
is persisted. -/
theorem c5_invalid_event_persisted :
    (runScript demoSt createThenYesScript).events.length = 1 ∧
    ((runScript demoSt createThenYesScript).events.all (fun e =>
        ¬ (event_clean_errors (runScript demoSt createThenYesScript).now e).isEmpty))
      = true := by
  exact ⟨rfl, rfl⟩

/-- Claim C9, counterexample: with a live pending action and a message that is
neither a confirm nor a cancel phrase, a reply on the new-action-preview
branch is returned WITHOUT the reminder notice prepended (the reminder is only
applied on the informational-answer branch). -/
theorem c9_counterexample :
    reminder_text.data.isPrefixOf
      (runReply pendingLiveSt 1 "make another event" createLaunchLlm "ANSWER").data
      = false := by
  rfl

/-- Claim C6: confirming a `create_event` whose venue name matches no stored
venue under the case-insensitive equality returns the described failure asking
the caller to create the venue first, and leaves the store untouched — no
venue and no event is created; the executor never auto-creates a venue during
confirmation. -/
theorem c6_missing_venue_described_failure (st : St) (p : PendingAIAction)
    (u : Nat) (org : Nat)
    (ha : p.action_type = "create_event")
    (horg : organizerOf st u = some org)
    (htr : truthy (dictGet p.payload "venue_name") = true)
    (hnm : st.venues.find?
        (fun v => pyLower v.name = pyLower (pyStr (dictGet p.payload "venue_name")))
        = none) :
    execute_pending_action st p u
      = .ok ("I couldn‚Äôt find a venue called \x27" ++
             pyStr (dictGet p.payload "venue_name") ++ "\x27. " ++
             "Please create that venue first or specify a different name.", st) := by
  unfold execute_pending_action
  rw [ha, horg]
  simp only [htr, hnm, not_true, if_false, ite_true, ite_false, if_pos, reduceIte]


/-- Claim C6, witness: confirming `hallBPending` against `demoSt` (whose only
venue is `"Hall A"`) yields the create-the-venue-first failure and the
unchanged store. -/
theorem c6_witness :
    hallBPending.action_type = "create_event" ∧
    organizerOf demoSt 1 = some 10 ∧
    truthy (dictGet hallBPending.payload "venue_name") = true ∧
    demoSt.venues.find?
      (fun v => pyLower v.name = pyLower (pyStr (dictGet hallBPending.payload "venue_name")))
      = none ∧
    execute_pending_action demoSt hallBPending 1
      = .ok ("I couldn‚Äôt find a venue called \x27Hall B\x27. " ++
             "Please create that venue first or specify a different name.",
             demoSt) :=
  ⟨rfl, rfl, rfl, rfl,
   c6_missing_venue_described_failure demoSt hallBPending 1 10 rfl rfl rfl rfl⟩

/-- Claim C7: `create_for` with `minutes = 5` at clock `T` stamps
`expires_at = T + 5 * 60` exactly and `created_at = T` (the expiry is computed
once at creation; rows are never updated in place — every operation only
inserts or deletes whole rows). A lookup strictly after the expiry finds the
action expired: `chat_api` deletes the stale row and proceeds exactly as the
no-pending path with no reminder — the action behaves as absent. -/
theorem c7_ttl_exact_and_expired_absent (st : St) (u : Nat) (a : String)
    (payload : List (String × Json)) (p : PendingAIAction) (msg : String)
    (llm : Option Json) (ans : String)
    (h1 : mostRecentFor st.pendings u = some p)
    (h2 : p.expires_at < st.now) :
    (create_for st u a payload 5).1.expires_at = st.now + 5 * 60 ∧
    (create_for st u a payload 5).1.created_at = st.now ∧
    chat_api st u msg llm ans = plannerBranch (deletePending st p) u llm ans none := by
  refine ⟨rfl, rfl, ?_⟩
  unfold chat_api
  rw [h1]
  have hx : p.is_expired st.now = true := by
    simp [PendingAIAction.is_expired, le_of_lt h2]
  simp [hx]


/-- Claim C7, witness: at clock 1000 a new 5-minute pending action would
expire at exactly 1300, and a `"yes"` sent while only the expired
`stalePending` exists falls through to the planner branch on the store with
the stale row deleted and no reminder. -/
theorem c7_witness :
    mostRecentFor stalePendingSt.pendings 1 = some stalePending ∧
    stalePending.expires_at < stalePendingSt.now ∧
    ((create_for stalePendingSt 1 "create_event" [] 5).1.expires_at
        = stalePendingSt.now + 5 * 60 ∧
      (create_for stalePendingSt 1 "create_event" [] 5).1.created_at
        = stalePendingSt.now ∧
      chat_api stalePendingSt 1 "yes" none "ANSWER"
        = plannerBranch (deletePending stalePendingSt stalePending) 1 none
            "ANSWER" none) :=
  ⟨rfl, by decide,
   c7_ttl_exact_and_expired_absent stalePendingSt 1 "create_event" []
     stalePending "yes" none "ANSWER" rfl (by decide)⟩

/-- Claim C8: a non-privileged identity (no linked organizer — the link is
set only on admin approval) whose message classifies as any mutation kind
receives the fixed permission-denied reply with the store unchanged; assuming
no pending action existed for the identity, the most-recent lookup still
returns none afterwards. -/
theorem c8_permission_denied_no_pending (st : St) (u : Nat) (msg : String)
    (llm : Option Json) (ans : String) (plan : Plan)
    (hnone : mostRecentFor st.pendings u = none)
    (horg : organizerOf st u = none)
    (hplan : plan_action llm = .ok plan)
    (hmut : plan.action ≠ "none") :
    chat_api st u msg llm ans = .ok (permission_denied_reply, st) ∧
    mostRecentFor st.pendings u = none := by
  refine ⟨?_, hnone⟩
  unfold chat_api
  rw [hnone]
  unfold plannerBranch
  simp only [bind, Except.bind, hplan, horg]
  rw [if_neg hmut]
  simp


/-- Claim C8, witness: identity 2 has no organizer link in `demoSt`; a message
classified as `delete_event` gets the fixed denial and the pending store stays
empty for identity 2. -/
theorem c8_witness :
    mostRecentFor demoSt.pendings 2 = none ∧
    organizerOf demoSt 2 = none ∧
    plan_action deleteLaunchLlm
      = .ok ⟨"delete_event", Json.str "", [("identifier", Json.str "Launch")]⟩ ∧
    (⟨"delete_event", Json.str "", [("identifier", Json.str "Launch")]⟩ : Plan).action
      ≠ "none" ∧
    (chat_api demoSt 2 "delete the Launch event" deleteLaunchLlm "ANSWER"
        = .ok (permission_denied_reply, demoSt) ∧
      mostRecentFor demoSt.pendings 2 = none) :=
  ⟨rfl, rfl, rfl, by decide,
   c8_permission_denied_no_pending demoSt 2 "delete the Launch event"
     deleteLaunchLlm "ANSWER"
     ⟨"delete_event", Json.str "", [("identifier", Json.str "Launch")]⟩
     rfl rfl rfl (by decide)⟩

/-- Claim C9, amended: with a live pending action and a message that is
neither a confirm nor a cancel phrase, the pending action is not discarded and
classification proceeds as if none existed, but the reminder notice is
prepended only when classification yields no action (the informational
answer); the permission-denied and new-action-preview branches return their
replies without the reminder (see the counterexample). Below: the
informational branch returns the reminder, the separator, and the answer,
with the store — hence the pending action — unchanged. -/
theorem c9_reminder_only_on_answer_branch (st : St) (u : Nat) (msg : String)
    (llm : Option Json) (ans : String) (p : PendingAIAction) (plan : Plan)
    (h1 : mostRecentFor st.pendings u = some p)
    (h2 : p.is_expired st.now = false)
    (h3 : pyStrip (pyLower msg) ∉ confirm_phrases)
    (h4 : pyStrip (pyLower msg) ∉ cancel_phrases)
    (h5 : plan_action llm = .ok plan)
    (h6 : plan.action = "none") :
    chat_api st u msg llm ans
      = .ok (reminder_text ++ answer_sep ++ ans, st) := by
  unfold chat_api
  rw [h1]
  simp only [h2, Bool.false_eq_true, if_false]
  rw [if_neg h3, if_neg h4]
  unfold plannerBranch
  simp only [bind, Except.bind, h5]
  rw [if_pos h6]


/-- Claim C9, witness: an informational question asked while a live pending
action exists returns the reminder, the separator, and the answer text, and
leaves the store unchanged. -/
theorem c9_witness :
    mostRecentFor pendingLiveSt.pendings 1
      = some ⟨1, 1, "create_event",
              [("title", Json.str "Launch"), ("venue_name", Json.str "Hall A"),
               ("start", Json.str "2031-05-01 10:00")], 1000, 1300⟩ ∧
    (⟨1, 1, "create_event",
       [("title", Json.str "Launch"), ("venue_name", Json.str "Hall A"),
        ("start", Json.str "2031-05-01 10:00")], 1000,
      1300⟩ : PendingAIAction).is_expired pendingLiveSt.now = false ∧
    pyStrip (pyLower "what events are there") ∉ confirm_phrases ∧
    pyStrip (pyLower "what events are there") ∉ cancel_phrases ∧
    plan_action noneLlm = .ok ⟨"none", Json.str "", []⟩ ∧
    (⟨"none", Json.str "", []⟩ : Plan).action = "none" ∧
    chat_api pendingLiveSt 1 "what events are there" noneLlm "ANSWER"
      = .ok (reminder_text ++ answer_sep ++ "ANSWER", pendingLiveSt) :=
  ⟨rfl, rfl, by decide, by decide, rfl, rfl,
   c9_reminder_only_on_answer_branch pendingLiveSt 1 "what events are there"
     noneLlm "ANSWER" _ ⟨"none", Json.str "", []⟩ rfl rfl (by decide) (by decide)
     rfl rfl⟩

end EMS
